import Mathlib

/-!
Shallow embedding of `src/app.py` (a small Flask backend wrapping one
outbound Gemini HTTP call).

Python runtime values reachable from JSON bodies are modelled by `PyVal`.
Dynamic-typing failures (AttributeError, TypeError, KeyError, IndexError)
are modelled by `Except PyErr`.  The outbound HTTP call of `call_gemini`
is modelled by a `NetOutcome` parameter: either the HTTP library raises a
RequestException (network failure / timeout / redirect trouble), or a
final response with a status code and an optional JSON body arrives
(`none` body = the body did not parse as JSON, which the library also
surfaces as a RequestException subclass).
-/

/-- Python values that can result from parsing a JSON request or response
body: None, bool, int, str, list, dict (string keys, as JSON gives). -/
inductive PyVal where
  | none : PyVal
  | bool : Bool → PyVal
  | int : Int → PyVal
  | str : String → PyVal
  | list : List PyVal → PyVal
  | dict : List (String × PyVal) → PyVal

/-- Python exception kinds that the handlers can raise unhandled. -/
inductive PyErr where
  | attributeError : PyErr
  | typeError : PyErr
  | keyError : PyErr
  | indexError : PyErr
deriving Repr, DecidableEq

/-- First value bound to a key in an association list (Python dict lookup;
JSON-parsed dicts have no duplicate keys, lookup takes the first). -/
def lookupKey (key : String) : List (String × PyVal) → Option PyVal
  | [] => Option.none
  | (k2, v) :: rest => if k2 = key then Option.some v else lookupKey key rest

/-- Python truthiness of a value (`if x:` / `x or y`). -/
def truthy : PyVal → Bool
  | .none => false
  | .bool b => b
  | .int n => n != 0
  | .str s => !s.isEmpty
  | .list xs => !xs.isEmpty
  | .dict fs => !fs.isEmpty

/-- Python `d.get(key, default)`: only dicts have `.get`; anything else
raises AttributeError. -/
def dictGet : PyVal → String → PyVal → Except PyErr PyVal
  | .dict fs, key, dflt => .ok ((lookupKey key fs).getD dflt)
  | _, _, _ => .error .attributeError

/-- Python `x[0]`: head of a list, first character of a string (as a
1-character string), KeyError on a string-keyed dict, TypeError else. -/
def index0 : PyVal → Except PyErr PyVal
  | .list [] => .error .indexError
  | .list (x :: _) => .ok x
  | .str s =>
      match s.data with
      | [] => .error .indexError
      | c :: _ => .ok (.str (String.mk [c]))
  | .dict _ => .error .keyError
  | _ => .error .typeError

/-- Whether `needle` occurs as a contiguous run inside `hay` (Python
substring containment `needle in hay` for strings). -/
def strContains (hay needle : List Char) : Bool :=
  match hay with
  | [] => needle.isEmpty
  | _ :: t => needle.isPrefixOf hay || strContains t needle

/-- Python `x == "text"` (cross-type equality with a string is False). -/
def isTextStr : PyVal → Bool
  | .str s => s == "text"
  | _ => false

/-- Python `"text" in x`: key test on a dict, substring test on a string,
membership on a list, TypeError on anything else. -/
def memText : PyVal → Except PyErr Bool
  | .dict fs => .ok (lookupKey "text" fs).isSome
  | .str s => .ok (strContains s.data ("text".data))
  | .list xs => .ok (xs.any isTextStr)
  | _ => .error .typeError

/-- Python `x["text"]`: dict lookup (KeyError when absent); strings and
lists reject string subscripts with TypeError. -/
def subscriptText : PyVal → Except PyErr PyVal
  | .dict fs =>
      match lookupKey "text" fs with
      | Option.some v => .ok v
      | Option.none => .error .keyError
  | _ => .error .typeError

/-- Characters of a string with surrounding whitespace dropped (the
effect of Python `str.strip()` on the character sequence). -/
def stripChars (cs : List Char) : List Char :=
  ((cs.dropWhile Char.isWhitespace).reverse.dropWhile Char.isWhitespace).reverse

/-- Python `x.strip()`: trims surrounding whitespace of a str; any
non-str receiver (None, bool, int, list, dict) raises AttributeError. -/
def pyStrip : PyVal → Except PyErr String
  | .str s => .ok (String.mk (stripChars s.data))
  | _ => .error .attributeError

/-- Outcome of the single outbound HTTP POST, as seen by `call_gemini`:
the library raised a RequestException with some description, or a final
response arrived with a status code and an optional parsed JSON body
(`none` = body was not valid JSON). -/
inductive NetOutcome where
  | requestException : String → NetOutcome
  | response : Nat → Option PyVal → NetOutcome

/-- Result of invoking `call_gemini`: a returned Python value, or an
exception escaping the function. -/
inductive CallResult where
  | ret : PyVal → CallResult
  | raise : PyErr → CallResult

/-- Result of invoking a route handler: an HTTP response with a status
and a JSON body, or an unhandled exception escaping the handler. -/
inductive HttpResp where
  | resp : Nat → PyVal → HttpResp
  | raise : PyErr → HttpResp

/-- Truthiness of the module-global GEMINI_API_KEY (read from the
environment: absent, or a string that may be empty). -/
def keyTruthy : Option String → Bool
  | Option.none => false
  | Option.some s => !s.isEmpty

def GEMINI_MODEL_URL : String :=
  "https://generativestorybooks.googleapis.com/v1beta/models/gemini-2.5-flash-preview-09-2025:generateContent"

def KEY_MISSING_MSG : String :=
  "Error: GEMINI_API_KEY is not set. Set it in your environment to enable AI features."

def NO_VALID_TEXT_MSG : String := "Error: No valid text returned from Gemini."

def ERR_CALLING_HEAD : String := "Error calling Gemini API: "

/-- Message text of the HTTPError that `resp.raise_for_status()` raises
for a 4xx/5xx status (abstraction of the library message, which starts
with the code and Client/Server Error). -/
def httpErrorDesc (status : Nat) : String :=
  if status < 500 then toString status ++ " Client Error"
  else toString status ++ " Server Error"

/-- Message text of the JSON decode failure raised by `resp.json()`
(abstraction of the library message). -/
def JSON_DECODE_DESC : String := "Expecting value: line 1 column 1 (char 0)"

/-- Lines 46-52 of `src/app.py`: extraction of the generated text from
the parsed response body.

    candidate = (data.get("candidates") or [{}])[0]
    content = candidate.get("content", {})
    parts = content.get("parts", [])
    if parts and "text" in parts[0]:
        return parts[0]["text"]
    return "Error: No valid text returned from Gemini."
-/
def extractText (data : PyVal) : Except PyErr PyVal :=
  match dictGet data "candidates" PyVal.none with
  | .error e => .error e
  | .ok craw =>
    let cval := if truthy craw then craw else PyVal.list [PyVal.dict []]
    match index0 cval with
    | .error e => .error e
    | .ok candidate =>
      match dictGet candidate "content" (PyVal.dict []) with
      | .error e => .error e
      | .ok content =>
        match dictGet content "parts" (PyVal.list []) with
        | .error e => .error e
        | .ok parts =>
          if truthy parts then
            match index0 parts with
            | .error e => .error e
            | .ok p0 =>
              match memText p0 with
              | .error e => .error e
              | .ok b =>
                if b then subscriptText p0
                else .ok (PyVal.str NO_VALID_TEXT_MSG)
          else .ok (PyVal.str NO_VALID_TEXT_MSG)

/-- Lines 17-55 of `src/app.py`: the External Call Adapter.  `apiKey` is
the module-global GEMINI_API_KEY; `net` is the outcome of the outbound
POST (only consulted when the key check passes).  `raise_for_status`
raises HTTPError exactly for statuses in [400, 600); both it, transport
failures and the `resp.json()` decode failure are RequestException
subclasses, caught by the `except` clause. -/
def call_gemini (apiKey : Option String) (net : NetOutcome)
    (user_query system_prompt : String) : CallResult :=
  if !keyTruthy apiKey then CallResult.ret (PyVal.str KEY_MISSING_MSG)
  else
    match net with
    | .requestException desc =>
        CallResult.ret (PyVal.str (ERR_CALLING_HEAD ++ desc))
    | .response status body =>
      if 400 ≤ status ∧ status < 600 then
        CallResult.ret (PyVal.str (ERR_CALLING_HEAD ++ httpErrorDesc status))
      else
        match body with
        | Option.none =>
            CallResult.ret (PyVal.str (ERR_CALLING_HEAD ++ JSON_DECODE_DESC))
        | Option.some data =>
          match extractText data with
          | .ok v => CallResult.ret v
          | .error e => CallResult.raise e

def BIO_SYSTEM_PROMPT : String :=
  "You are a professional resume writer. Write an engaging, first-person \x27About Me\x27 section for a personal portfolio. The tone should be passionate and professional. Base it on the following keywords. Keep it to 3-4 concise paragraphs."

def PROJECT_SYSTEM_PROMPT : String :=
  "You are a tech mentor. Suggest a new, impressive portfolio project idea. Respond with a title, a 1-2 sentence description, and 3-4 key technologies. Format your response in simple HTML (e.g., <h3>Title</h3><p>Description</p><p><strong>Tech:</strong> Tech 1, Tech 2</p>)."

/-- Python `request.get_json(silent=True) or {}`: a body that is missing
or fails to parse as JSON yields None under silent=True, and `or {}`
replaces None (and any falsy parse result) by the empty dict. -/
def requestData : Option PyVal → PyVal
  | Option.none => PyVal.dict []
  | Option.some v => if truthy v then v else PyVal.dict []

/-- Lines 64-85 of `src/app.py`: the /api/bio POST handler.  `body` is
the JSON parse of the request body (`none` = malformed or absent). -/
def api_bio (body : Option PyVal) (apiKey : Option String)
    (net : NetOutcome) : HttpResp :=
  let data := requestData body
  match dictGet data "keywords" (PyVal.str "") with
  | .error e => .raise e
  | .ok kwRaw =>
    match pyStrip kwRaw with
    | .error e => .raise e
    | .ok keywords =>
      if keywords.isEmpty then
        .resp 400 (PyVal.dict [("error", PyVal.str "No keywords provided.")])
      else
        match call_gemini apiKey net ("Keywords: " ++ keywords) BIO_SYSTEM_PROMPT with
        | .ret v => .resp 200 (PyVal.dict [("text", v)])
        | .raise e => .raise e

/-- Line 95 of `src/app.py`:
`role = data.get("role", "AI Software Engineer").strip() or "AI Software Engineer"`. -/
def project_role (data : PyVal) : Except PyErr String :=
  match dictGet data "role" (PyVal.str "AI Software Engineer") with
  | .error e => .error e
  | .ok r =>
    match pyStrip r with
    | .error e => .error e
    | .ok s => .ok (if s.isEmpty then "AI Software Engineer" else s)

/-- Line 105 of `src/app.py`: the user query the project route hands to
the adapter, `f"Role: {role}"`. -/
def project_user_query (data : PyVal) : Except PyErr String :=
  match project_role data with
  | .error e => .error e
  | .ok r => .ok ("Role: " ++ r)

/-- Lines 88-107 of `src/app.py`: the /api/project POST handler. -/
def api_project (body : Option PyVal) (apiKey : Option String)
    (net : NetOutcome) : HttpResp :=
  let data := requestData body
  match project_user_query data with
  | .error e => .raise e
  | .ok uq =>
    match call_gemini apiKey net uq PROJECT_SYSTEM_PROMPT with
    | .ret v => .resp 200 (PyVal.dict [("html", v)])
    | .raise e => .raise e

/-- HTTP status of a handler outcome, `none` when an exception escaped. -/
def statusOf : HttpResp → Option Nat
  | .resp s _ => Option.some s
  | .raise _ => Option.none

/-- Whether `call_gemini` returned (rather than raised). -/
def adapterReturned : CallResult → Bool
  | .ret _ => true
  | .raise _ => false

/-- Whether `call_gemini` returned a Python str. -/
def retIsStr : CallResult → Bool
  | .ret (.str _) => true
  | _ => false

/-- The value at the JSON path `candidates[0].content.parts[0].text` of a
parsed body, when that path exists with JSON-typed intermediate nodes
(spec-side predicate used to state the extraction claims). -/
def pathValue (v : PyVal) : Option PyVal :=
  match v with
  | .dict fs =>
    match lookupKey "candidates" fs with
    | Option.some (.list (PyVal.dict cc :: _)) =>
      match lookupKey "content" cc with
      | Option.some (.dict ctf) =>
        match lookupKey "parts" ctf with
        | Option.some (.list (PyVal.dict pf :: _)) => lookupKey "text" pf
        | _ => Option.none
      | _ => Option.none
    | _ => Option.none
  | _ => Option.none

/-- JSON value non-null and not a string (used for the dynamic-typing
claims about request fields). -/
def nonStrNonNull : PyVal → Bool
  | .bool _ => true
  | .int _ => true
  | .list _ => true
  | .dict _ => true
  | _ => false

/-- The parsed body of the upstream example response
`{"candidates":[{"content":{"parts":[{"text":"Hello"}]}}]}`. -/
def geminiHelloBody : PyVal :=
  PyVal.dict [("candidates", PyVal.list [PyVal.dict [("content",
    PyVal.dict [("parts", PyVal.list [PyVal.dict [("text", PyVal.str "Hello")]])])]])]

/-- An upstream body whose text field holds a JSON number instead of a
string: `{"candidates":[{"content":{"parts":[{"text":123}]}}]}`. -/
def geminiNumTextBody : PyVal :=
  PyVal.dict [("candidates", PyVal.list [PyVal.dict [("content",
    PyVal.dict [("parts", PyVal.list [PyVal.dict [("text", PyVal.int 123)]])])]])]

/-- An upstream body with a null first candidate:
`{"candidates":[null]}`. -/
def geminiNullCandidateBody : PyVal :=
  PyVal.dict [("candidates", PyVal.list [PyVal.none])]

/-- The broken-extraction shapes named by the spec, on a JSON object
body: candidates missing or the empty list, a first candidate object
without content, content without parts (or with the empty parts list),
or a first part object without a text key. -/
def brokenShape (fs : List (String × PyVal)) : Prop :=
  lookupKey "candidates" fs = Option.none ∨
  lookupKey "candidates" fs = Option.some (PyVal.list []) ∨
  ∃ cc rest, lookupKey "candidates" fs = Option.some (PyVal.list (PyVal.dict cc :: rest)) ∧
    (lookupKey "content" cc = Option.none ∨
     ∃ ctf, lookupKey "content" cc = Option.some (PyVal.dict ctf) ∧
       (lookupKey "parts" ctf = Option.none ∨
        lookupKey "parts" ctf = Option.some (PyVal.list []) ∨
        ∃ pf prest,
          lookupKey "parts" ctf = Option.some (PyVal.list (PyVal.dict pf :: prest)) ∧
          lookupKey "text" pf = Option.none))

/-! ## Infrastructure lemmas -/

/-- Route-level `request.get_json(silent=True) or {}` on a JSON object
body looks up fields exactly as in the parsed object. -/
lemma dictGet_requestData (d : List (String × PyVal)) (key : String) (dflt : PyVal) :
    dictGet (requestData (Option.some (PyVal.dict d))) key dflt
      = Except.ok ((lookupKey key d).getD dflt) := by
  cases d with
  | nil => rfl
  | cons p t => rfl

/-- A string rebuilt from characters is empty exactly when the character
list is. -/
lemma mk_isEmpty (cs : List Char) : (String.mk cs).isEmpty = cs.isEmpty := by
  cases cs with
  | nil => rfl
  | cons c t =>
    have hne : String.mk (c :: t) ≠ "" := by
      intro hcontra
      have : c :: t = ([] : List Char) := congrArg String.data hcontra
      exact List.noConfusion this
    simp only [List.isEmpty_cons]
    by_cases hb : (String.mk (c :: t)).isEmpty
    · exact absurd ((String.isEmpty_iff _).mp hb) hne
    · simpa using hb

/-- With no `role` field, the project route's defaulting line produces
the fixed default role. -/
lemma project_role_absent (d : List (String × PyVal))
    (h : lookupKey "role" d = Option.none) :
    project_role (requestData (Option.some (PyVal.dict d)))
      = Except.ok "AI Software Engineer" := by
  simp only [project_role, dictGet_requestData, h, Option.getD_none, pyStrip]
  rfl

/-- With a string `role` field, the project route's defaulting line
produces the trimmed role, or the default when trimming leaves nothing. -/
lemma project_role_str (d : List (String × PyVal)) (s : String)
    (h : lookupKey "role" d = Option.some (PyVal.str s)) :
    project_role (requestData (Option.some (PyVal.dict d)))
      = Except.ok (if (String.mk (stripChars s.data)).isEmpty then "AI Software Engineer"
                   else String.mk (stripChars s.data)) := by
  simp only [project_role, dictGet_requestData, h, Option.getD_some, pyStrip]

/-- The project route's user query is the fixed role header glued to
whatever the defaulting line produced. -/
lemma project_user_query_of_ok (data : PyVal) (r : String)
    (h : project_role data = Except.ok r) :
    project_user_query data = Except.ok ("Role: " ++ r) := by
  simp only [project_user_query, h]

/-- When the body holds the full candidates-content-parts-text path, the
extraction code returns exactly the value at that path. -/
lemma extractText_of_pathValue (d v : PyVal) (h : pathValue d = Option.some v) :
    extractText d = Except.ok v := by
  cases d <;> simp only [pathValue] at h <;> try exact Option.noConfusion h
  rename_i fs
  split at h <;> try exact Option.noConfusion h
  rename_i cc ctail heq1
  split at h <;> try exact Option.noConfusion h
  rename_i ctf heq2
  split at h <;> try exact Option.noConfusion h
  rename_i pf ptail heq3
  simp [extractText, dictGet, heq1, heq2, heq3, h, truthy, index0, memText, subscriptText]

/-- Each of the spec's four named broken shapes makes the extraction
code return the fixed no-valid-text sentence without raising. -/
lemma extractText_broken (fs : List (String × PyVal)) (hb : brokenShape fs) :
    extractText (PyVal.dict fs) = Except.ok (PyVal.str NO_VALID_TEXT_MSG) := by
  rcases hb with h | h | ⟨cc, rest, hc, h | ⟨ctf, hct, h | h | ⟨pf, prest, hp, htx⟩⟩⟩
  · simp [extractText, dictGet, h, truthy, index0, lookupKey, memText]
  · simp [extractText, dictGet, h, truthy, index0, lookupKey, memText]
  · simp [extractText, dictGet, hc, h, truthy, index0, lookupKey, memText]
  · simp [extractText, dictGet, hc, hct, h, truthy, index0, lookupKey, memText]
  · simp [extractText, dictGet, hc, hct, h, truthy, index0, lookupKey, memText]
  · simp [extractText, dictGet, hc, hct, hp, htx, truthy, index0, lookupKey, memText]

/-- When the key check passes and a response with a non-error status and
a JSON body arrived, `call_gemini` forwards the extraction outcome. -/
lemma call_gemini_extract (ks q s : String) (status : Nat) (data : PyVal)
    (hk : ks.isEmpty = false) (hst : ¬(400 ≤ status ∧ status < 600)) :
    call_gemini (Option.some ks) (NetOutcome.response status (Option.some data)) q s
      = (match extractText data with
         | Except.ok v => CallResult.ret v
         | Except.error e => CallResult.raise e) := by
  simp [call_gemini, keyTruthy, hk, hst]

/-! ## Claim C1 -/

/-- Counterexample to C1 as stated: the 2xx JSON body
`{"candidates":[null]}` is a malformed shape, yet `call_gemini` does not
return the no-valid-text sentence — the attribute access on the null
candidate raises an unhandled AttributeError. -/
theorem c1_counterexample :
    call_gemini (Option.some "k") (NetOutcome.response 200 (Option.some geminiNullCandidateBody)) "q" "s"
        = CallResult.raise PyErr.attributeError ∧
      adapterReturned (call_gemini (Option.some "k")
        (NetOutcome.response 200 (Option.some geminiNullCandidateBody)) "q" "s") = false :=
  ⟨rfl, rfl⟩

/-- C1 amended: for every 2xx JSON object response broken in one of the
four ways the spec names — missing (or empty) `candidates`, a first
candidate object missing `content`, missing or empty `parts`, or a first
part object missing `text` — `call_gemini` returns exactly the
no-valid-text sentence.  (Shapes with wrongly typed intermediate values,
such as a null candidate, instead raise.) -/
theorem c1_broken_shapes_yield_no_valid_text (ks q s : String) (status : Nat)
    (fs : List (String × PyVal)) (hk : ks.isEmpty = false)
    (h2 : 200 ≤ status) (h2b : status ≤ 299) (hb : brokenShape fs) :
    call_gemini (Option.some ks) (NetOutcome.response status (Option.some (PyVal.dict fs))) q s
      = CallResult.ret (PyVal.str NO_VALID_TEXT_MSG) := by
  have hst : ¬(400 ≤ status ∧ status < 600) := by omega
  rw [call_gemini_extract ks q s status _ hk hst, extractText_broken fs hb]

/-- Witness for the amended C1 at the concrete body `{"candidates":[]}`. -/
theorem c1_witness :
    call_gemini (Option.some "k")
        (NetOutcome.response 200 (Option.some (PyVal.dict [("candidates", PyVal.list [])]))) "q" "s"
      = CallResult.ret (PyVal.str NO_VALID_TEXT_MSG) :=
  c1_broken_shapes_yield_no_valid_text "k" "q" "s" 200 _ rfl (by decide) (by decide)
    (Or.inr (Or.inl rfl))

/-! ## Claim C5 -/

/-- C5: whatever the inputs and whatever the network would have done,
an unset or empty GEMINI_API_KEY makes `call_gemini` return exactly the
key-missing sentence; the outcome does not depend on the network at all,
so no network call is attempted. -/
theorem c5_key_missing_no_call (k : Option String) (net : NetOutcome) (q s : String)
    (h : k = Option.none ∨ k = Option.some "") :
    call_gemini k net q s = CallResult.ret (PyVal.str KEY_MISSING_MSG) := by
  rcases h with h | h <;> subst h <;> rfl

/-- Witness for C5 with the key absent and a transport-failing network. -/
theorem c5_witness :
    call_gemini Option.none (NetOutcome.requestException "x") "q" "s"
      = CallResult.ret (PyVal.str KEY_MISSING_MSG) :=
  c5_key_missing_no_call Option.none (NetOutcome.requestException "x") "q" "s" (Or.inl rfl)

/-! ## Claim C7 -/

/-- C7: every 2xx upstream JSON body carrying the path
`candidates[0].content.parts[0].text` makes `call_gemini` return exactly
the value at that path. -/
theorem c7_path_value_returned (ks q s : String) (status : Nat) (d v : PyVal)
    (hk : ks.isEmpty = false) (h2 : 200 ≤ status) (h2b : status ≤ 299)
    (hpath : pathValue d = Option.some v) :
    call_gemini (Option.some ks) (NetOutcome.response status (Option.some d)) q s
      = CallResult.ret v := by
  have hst : ¬(400 ≤ status ∧ status < 600) := by omega
  rw [call_gemini_extract ks q s status d hk hst, extractText_of_pathValue d v hpath]

/-- Witness for C7: the Hello body yields exactly "Hello". -/
theorem c7_witness :
    call_gemini (Option.some "k") (NetOutcome.response 200 (Option.some geminiHelloBody)) "q" "s"
      = CallResult.ret (PyVal.str "Hello") :=
  c7_path_value_returned "k" "q" "s" 200 geminiHelloBody (PyVal.str "Hello")
    rfl (by decide) (by decide) rfl

/-! ## Claim C6 -/

/-- Counterexample to C6 as stated: a final 3xx response is a non-2xx
status, but `raise_for_status` only raises for 4xx/5xx, so a 304
carrying a well-shaped JSON body is treated as success and the call
returns the extracted text rather than a transport-error string. -/
theorem c6_counterexample :
    call_gemini (Option.some "k") (NetOutcome.response 304 (Option.some geminiHelloBody)) "q" "s"
        = CallResult.ret (PyVal.str "Hello") ∧
      ERR_CALLING_HEAD.data.isPrefixOf ("Hello").data = false :=
  ⟨rfl, rfl⟩

/-- C6 amended: every transport-level failure (RequestException, which
covers network failures and timeouts) and every 4xx/5xx status is
caught and converted to a string made of the fixed head
"Error calling Gemini API: " followed by the failure description, never
raised; a final 3xx status is not treated as an error and proceeds to
body extraction. -/
theorem c6_transport_and_4xx_5xx_caught (ks q s desc : String) (status : Nat)
    (body : Option PyVal) (hk : ks.isEmpty = false)
    (h4 : 400 ≤ status) (h6 : status < 600) :
    call_gemini (Option.some ks) (NetOutcome.requestException desc) q s
        = CallResult.ret (PyVal.str (ERR_CALLING_HEAD ++ desc)) ∧
      call_gemini (Option.some ks) (NetOutcome.response status body) q s
        = CallResult.ret (PyVal.str (ERR_CALLING_HEAD ++ httpErrorDesc status)) := by
  constructor
  · simp [call_gemini, keyTruthy, hk]
  · simp [call_gemini, keyTruthy, hk, h4, h6]

/-- Witness for the amended C6 at a timeout description and a 404. -/
theorem c6_witness :
    call_gemini (Option.some "k") (NetOutcome.requestException "timed out") "q" "s"
        = CallResult.ret (PyVal.str (ERR_CALLING_HEAD ++ "timed out")) ∧
      call_gemini (Option.some "k") (NetOutcome.response 404 Option.none) "q" "s"
        = CallResult.ret (PyVal.str (ERR_CALLING_HEAD ++ httpErrorDesc 404)) :=
  c6_transport_and_4xx_5xx_caught "k" "q" "s" "timed out" 404 Option.none rfl
    (by decide) (by decide)

/-! ## Claim C2 -/

/-- Counterexample to C2 as stated: the JSON body `{"role": null}` does
not get HTTP 200 — `.strip()` on None raises an unhandled
AttributeError (surfacing as a 500), so the request is not answered
with a 200 response. -/
theorem c2_counterexample :
    api_project (Option.some (PyVal.dict [("role", PyVal.none)])) (Option.some "k")
        (NetOutcome.requestException "x") = HttpResp.raise PyErr.attributeError ∧
      statusOf (api_project (Option.some (PyVal.dict [("role", PyVal.none)])) (Option.some "k")
        (NetOutcome.requestException "x")) ≠ Option.some 200 :=
  ⟨rfl, by decide⟩

/-- C2 amended: for every JSON object body whose `role` field is absent
or is a string (empty and whitespace-only included), and whenever the
adapter returns rather than raises, POST /api/project answers HTTP 200
— the route has no validation failure.  A null or otherwise non-string
`role` instead raises on `.strip()`. -/
theorem c2_project_always_200 (d : List (String × PyVal)) (k : Option String)
    (net : NetOutcome)
    (hRole : lookupKey "role" d = Option.none ∨
      ∃ s, lookupKey "role" d = Option.some (PyVal.str s))
    (hNet : ∀ q sp, adapterReturned (call_gemini k net q sp) = true) :
    statusOf (api_project (Option.some (PyVal.dict d)) k net) = Option.some 200 := by
  obtain ⟨uq, huq⟩ :
      ∃ uq, project_user_query (requestData (Option.some (PyVal.dict d))) = Except.ok uq := by
    rcases hRole with h | ⟨s, h⟩
    · exact ⟨_, project_user_query_of_ok _ _ (project_role_absent d h)⟩
    · exact ⟨_, project_user_query_of_ok _ _ (project_role_str d s h)⟩
  cases hcall : call_gemini k net uq PROJECT_SYSTEM_PROMPT with
  | ret v => simp [api_project, huq, hcall, statusOf]
  | raise e =>
    have hret := hNet uq PROJECT_SYSTEM_PROMPT
    rw [hcall] at hret
    exact absurd hret (by simp [adapterReturned])

/-- Witness for the amended C2: empty body, absent key, transport
failure still answers 200. -/
theorem c2_witness :
    statusOf (api_project (Option.some (PyVal.dict [])) Option.none
      (NetOutcome.requestException "x")) = Option.some 200 :=
  c2_project_always_200 [] Option.none (NetOutcome.requestException "x")
    (Or.inl rfl) (fun q sp => rfl)

/-! ## Claim C3 -/

/-- Counterexample to C3 as stated: the body `{"keywords": null}` does
not get the 400 validation answer — `.strip()` on None raises an
unhandled AttributeError instead. -/
theorem c3_counterexample :
    api_bio (Option.some (PyVal.dict [("keywords", PyVal.none)])) (Option.some "k")
        (NetOutcome.requestException "x") = HttpResp.raise PyErr.attributeError ∧
      statusOf (api_bio (Option.some (PyVal.dict [("keywords", PyVal.none)])) (Option.some "k")
        (NetOutcome.requestException "x")) ≠ Option.some 400 :=
  ⟨rfl, by decide⟩

/-- C3 amended: for every request to POST /api/bio whose JSON object
body has `keywords` missing, or present as a string that is empty or
whitespace-only after trimming, the response is HTTP 400 with body
`{"error": "No keywords provided."}`.  A null `keywords` instead raises
on `.strip()`. -/
theorem c3_bio_400_on_empty_keywords (d : List (String × PyVal)) (k : Option String)
    (net : NetOutcome)
    (hkw : lookupKey "keywords" d = Option.none ∨
      ∃ s, lookupKey "keywords" d = Option.some (PyVal.str s) ∧ stripChars s.data = []) :
    api_bio (Option.some (PyVal.dict d)) k net
      = HttpResp.resp 400 (PyVal.dict [("error", PyVal.str "No keywords provided.")]) := by
  rcases hkw with h | ⟨s, h, hstrip⟩
  · simp [api_bio, dictGet_requestData, h, pyStrip, stripChars]
    all_goals (intro hfalse; exact absurd hfalse (by decide))
  · simp [api_bio, dictGet_requestData, h, pyStrip, hstrip]
    all_goals (intro hfalse; exact absurd hfalse (by decide))

/-- Witness for the amended C3 at a whitespace-only keywords string. -/
theorem c3_witness :
    api_bio (Option.some (PyVal.dict [("keywords", PyVal.str "   ")])) Option.none
        (NetOutcome.requestException "x")
      = HttpResp.resp 400 (PyVal.dict [("error", PyVal.str "No keywords provided.")]) :=
  c3_bio_400_on_empty_keywords [("keywords", PyVal.str "   ")] Option.none
    (NetOutcome.requestException "x") (Or.inr ⟨"   ", rfl, by decide⟩)

/-! ## Claim C4 -/

/-- Counterexample to C4 as stated: a request body that is not
well-formed JSON does not propagate any exception — `get_json` is
called with silent=True, the None result is replaced by the empty dict,
and the routes answer 400 (bio) and 200 (project) normally. -/
theorem c4_counterexample :
    api_bio Option.none (Option.some "k") (NetOutcome.requestException "boom")
        = HttpResp.resp 400 (PyVal.dict [("error", PyVal.str "No keywords provided.")]) ∧
      api_project Option.none (Option.some "k") (NetOutcome.requestException "boom")
        = HttpResp.resp 200 (PyVal.dict [("html", PyVal.str (ERR_CALLING_HEAD ++ "boom"))]) :=
  ⟨rfl, rfl⟩

/-- C4 amended: a malformed request body is silently treated as the
empty JSON object; /api/bio then answers its 400 validation response
and /api/project answers 200 (with the default role) whenever the
adapter returns.  No exception propagates from body parsing. -/
theorem c4_malformed_body_handled (k : Option String) (net : NetOutcome)
    (hNet : ∀ q sp, adapterReturned (call_gemini k net q sp) = true) :
    api_bio Option.none k net
        = HttpResp.resp 400 (PyVal.dict [("error", PyVal.str "No keywords provided.")]) ∧
      statusOf (api_project Option.none k net) = Option.some 200 := by
  constructor
  · rfl
  · have huq : project_user_query (requestData Option.none)
        = Except.ok "Role: AI Software Engineer" := rfl
    cases hcall : call_gemini k net "Role: AI Software Engineer" PROJECT_SYSTEM_PROMPT with
    | ret v => simp [api_project, huq, hcall, statusOf]
    | raise e =>
      have hret := hNet "Role: AI Software Engineer" PROJECT_SYSTEM_PROMPT
      rw [hcall] at hret
      exact absurd hret (by simp [adapterReturned])

/-- Witness for the amended C4 with no key and a transport failure. -/
theorem c4_witness :
    api_bio Option.none Option.none (NetOutcome.requestException "x")
        = HttpResp.resp 400 (PyVal.dict [("error", PyVal.str "No keywords provided.")]) ∧
      statusOf (api_project Option.none Option.none (NetOutcome.requestException "x"))
        = Option.some 200 :=
  c4_malformed_body_handled Option.none (NetOutcome.requestException "x") (fun q sp => rfl)

/-! ## Claim C9 -/

/-- C9: the user query the project route hands to the adapter equals
"Role: AI Software Engineer" when `role` is missing or trims to
nothing, and "Role: " followed by the trimmed role otherwise. -/
theorem c9_project_user_query :
    (∀ d : List (String × PyVal), lookupKey "role" d = Option.none →
       project_user_query (requestData (Option.some (PyVal.dict d)))
         = Except.ok "Role: AI Software Engineer") ∧
    (∀ (d : List (String × PyVal)) (s : String),
       lookupKey "role" d = Option.some (PyVal.str s) → stripChars s.data = [] →
       project_user_query (requestData (Option.some (PyVal.dict d)))
         = Except.ok "Role: AI Software Engineer") ∧
    (∀ (d : List (String × PyVal)) (s : String),
       lookupKey "role" d = Option.some (PyVal.str s) → stripChars s.data ≠ [] →
       project_user_query (requestData (Option.some (PyVal.dict d)))
         = Except.ok ("Role: " ++ String.mk (stripChars s.data))) := by
  refine ⟨?_, ?_, ?_⟩
  · intro d h
    exact project_user_query_of_ok _ _ (project_role_absent d h)
  · intro d s h hstrip
    have hq := project_user_query_of_ok _ _ (project_role_str d s h)
    rw [hstrip] at hq
    simpa using hq
  · intro d s h hne
    have hq := project_user_query_of_ok _ _ (project_role_str d s h)
    rw [mk_isEmpty] at hq
    simpa [hne] using hq

/-- Witness for C9 at a missing role, a whitespace role and a padded
role. -/
theorem c9_witness :
    project_user_query (requestData (Option.some (PyVal.dict [])))
        = Except.ok "Role: AI Software Engineer" ∧
      project_user_query (requestData (Option.some (PyVal.dict [("role", PyVal.str "  ")])))
        = Except.ok "Role: AI Software Engineer" ∧
      project_user_query (requestData (Option.some (PyVal.dict [("role", PyVal.str " dev ")])))
        = Except.ok ("Role: " ++ String.mk (stripChars (" dev ").data)) :=
  ⟨c9_project_user_query.1 [] rfl,
   c9_project_user_query.2.1 _ "  " rfl (by decide),
   c9_project_user_query.2.2 _ " dev " rfl (by decide)⟩

/-! ## Claim C10 -/

/-- C10: a `keywords` (bio) or `role` (project) field holding a
non-string, non-null JSON value — bool, number, list or object — makes
the handler raise an unhandled AttributeError on `.strip()` instead of
answering 400 or 200. -/
theorem c10_non_string_fields_raise :
    (∀ (d : List (String × PyVal)) (v : PyVal) (k : Option String) (net : NetOutcome),
       lookupKey "keywords" d = Option.some v → nonStrNonNull v = true →
       api_bio (Option.some (PyVal.dict d)) k net = HttpResp.raise PyErr.attributeError) ∧
    (∀ (d : List (String × PyVal)) (v : PyVal) (k : Option String) (net : NetOutcome),
       lookupKey "role" d = Option.some v → nonStrNonNull v = true →
       api_project (Option.some (PyVal.dict d)) k net = HttpResp.raise PyErr.attributeError) := by
  constructor
  · intro d v k net h hv
    cases v <;> simp_all [nonStrNonNull, api_bio, dictGet_requestData, pyStrip]
  · intro d v k net h hv
    cases v <;>
      simp_all [nonStrNonNull, api_project, project_user_query, project_role,
        dictGet_requestData, pyStrip]

/-- Witness for C10 at a numeric keywords field and a list role field. -/
theorem c10_witness :
    api_bio (Option.some (PyVal.dict [("keywords", PyVal.int 5)])) Option.none
        (NetOutcome.requestException "x") = HttpResp.raise PyErr.attributeError ∧
      api_project (Option.some (PyVal.dict [("role", PyVal.list [])])) Option.none
        (NetOutcome.requestException "x") = HttpResp.raise PyErr.attributeError :=
  ⟨c10_non_string_fields_raise.1 _ _ _ _ rfl rfl,
   c10_non_string_fields_raise.2 _ _ _ _ rfl rfl⟩

/-! ## Claim C8 -/

/-- Counterexample to C8 as stated: when the upstream text field holds
the JSON number 123, `call_gemini` returns that number unchanged — the
return value is not a plain string. -/
theorem c8_counterexample :
    call_gemini (Option.some "k") (NetOutcome.response 200 (Option.some geminiNumTextBody)) "q" "s"
        = CallResult.ret (PyVal.int 123) ∧
      retIsStr (call_gemini (Option.some "k")
        (NetOutcome.response 200 (Option.some geminiNumTextBody)) "q" "s") = false :=
  ⟨rfl, rfl⟩

/-- A string is empty exactly when its character list is. -/
lemma isEmpty_data (s : String) : s.isEmpty = s.data.isEmpty :=
  mk_isEmpty s.data

/-- Every successful return of the extraction code is either the fixed
no-valid-text sentence or exactly the value at the candidates-content-
parts-text path of the body. -/
lemma extractText_ok_cases (d r : PyVal) (h : extractText d = Except.ok r) :
    r = PyVal.str NO_VALID_TEXT_MSG ∨ pathValue d = Option.some r := by
  cases d <;> try exact Except.noConfusion h
  rename_i fs
  cases hc : lookupKey "candidates" fs with
  | none =>
    simp [extractText, dictGet, hc, truthy, index0, lookupKey, memText] at h
    exact Or.inl h.symm
  | some cv =>
    cases cv with
    | none =>
      simp [extractText, dictGet, hc, truthy, index0, lookupKey, memText] at h
      exact Or.inl h.symm
    | bool b =>
      cases b with
      | false =>
        simp [extractText, dictGet, hc, truthy, index0, lookupKey, memText] at h
        exact Or.inl h.symm
      | true => simp [extractText, dictGet, hc, truthy, index0] at h
    | int n =>
      by_cases hn : n = 0
      · subst hn
        simp [extractText, dictGet, hc, truthy, index0, lookupKey, memText] at h
        exact Or.inl h.symm
      · simp [extractText, dictGet, hc, truthy, hn, index0] at h
    | str s =>
      cases hd : s.data with
      | nil =>
        simp [extractText, dictGet, hc, truthy, isEmpty_data, hd, index0, lookupKey, memText] at h
        exact Or.inl h.symm
      | cons c t =>
        simp [extractText, dictGet, hc, truthy, isEmpty_data, hd, index0] at h
    | dict cc2 =>
      cases cc2 with
      | nil =>
        simp [extractText, dictGet, hc, truthy, index0, lookupKey, memText] at h
        exact Or.inl h.symm
      | cons q qs => simp [extractText, dictGet, hc, truthy, index0] at h
    | list xs =>
      cases xs with
      | nil =>
        simp [extractText, dictGet, hc, truthy, index0, lookupKey, memText] at h
        exact Or.inl h.symm
      | cons c0 crest =>
        cases c0 <;> try simp [extractText, dictGet, hc, truthy, index0] at h
        rename_i cc
        cases hct : lookupKey "content" cc with
        | none =>
          simp [extractText, dictGet, hc, hct, truthy, index0, lookupKey, memText] at h
          exact Or.inl h.symm
        | some ct =>
          cases ct <;> try simp [extractText, dictGet, hc, hct, truthy, index0] at h
          rename_i ctf
          cases hp : lookupKey "parts" ctf with
          | none =>
            simp [extractText, dictGet, hc, hct, hp, truthy, index0, lookupKey, memText] at h
            exact Or.inl h.symm
          | some pv =>
            cases pv with
            | none =>
              simp [extractText, dictGet, hc, hct, hp, truthy, index0, memText] at h
              exact Or.inl h.symm
            | bool b2 =>
              cases b2 with
              | false =>
                simp [extractText, dictGet, hc, hct, hp, truthy, index0, memText] at h
                exact Or.inl h.symm
              | true => simp [extractText, dictGet, hc, hct, hp, truthy, index0] at h
            | int n2 =>
              by_cases hn2 : n2 = 0
              · subst hn2
                simp [extractText, dictGet, hc, hct, hp, truthy, index0, memText] at h
                exact Or.inl h.symm
              · simp [extractText, dictGet, hc, hct, hp, truthy, hn2, index0] at h
            | dict dd =>
              cases dd with
              | nil =>
                simp [extractText, dictGet, hc, hct, hp, truthy, index0, memText] at h
                exact Or.inl h.symm
              | cons q2 q2s => simp [extractText, dictGet, hc, hct, hp, truthy, index0] at h
            | str s3 =>
              cases hd3 : s3.data with
              | nil =>
                simp [extractText, dictGet, hc, hct, hp, truthy, isEmpty_data, hd3, index0,
                  memText] at h
                exact Or.inl h.symm
              | cons c3 t3 =>
                simp [extractText, dictGet, hc, hct, hp, truthy, isEmpty_data, hd3, index0,
                  memText, strContains, List.isPrefixOf, subscriptText] at h
                exact Or.inl h.symm
            | list ps =>
              cases ps with
              | nil =>
                simp [extractText, dictGet, hc, hct, hp, truthy, index0, memText] at h
                exact Or.inl h.symm
              | cons p prest =>
                cases p with
                | none => simp [extractText, dictGet, hc, hct, hp, truthy, index0, memText] at h
                | bool b3 => simp [extractText, dictGet, hc, hct, hp, truthy, index0, memText] at h
                | int n3 => simp [extractText, dictGet, hc, hct, hp, truthy, index0, memText] at h
                | str s4 =>
                  cases hb4 : strContains s4.data ("text".data) with
                  | false =>
                    simp [extractText, dictGet, hc, hct, hp, truthy, index0, memText, hb4,
                      subscriptText] at h
                    exact Or.inl h.symm
                  | true =>
                    simp [extractText, dictGet, hc, hct, hp, truthy, index0, memText, hb4,
                      subscriptText] at h
                | list xs4 =>
                  cases hb4 : xs4.any isTextStr with
                  | false =>
                    simp [extractText, dictGet, hc, hct, hp, truthy, index0, memText, hb4,
                      subscriptText] at h
                    exact Or.inl h.symm
                  | true =>
                    simp [extractText, dictGet, hc, hct, hp, truthy, index0, memText, hb4,
                      subscriptText] at h
                | dict pf =>
                  cases htx : lookupKey "text" pf with
                  | none =>
                    simp [extractText, dictGet, hc, hct, hp, truthy, index0, memText, htx,
                      subscriptText] at h
                    exact Or.inl h.symm
                  | some v =>
                    right
                    simp [extractText, dictGet, hc, hct, hp, truthy, index0, memText, htx,
                      subscriptText] at h
                    simp [pathValue, hc, hct, hp, htx, h]

/-- C8 amended: whenever `call_gemini` returns, the returned value is
one of the three error sentences (configuration, transport with its
description appended, shape) or exactly the value found at
`candidates[0].content.parts[0].text` of a received JSON body.  The
latter is a plain string whenever the upstream text field is a string,
but a non-string text value is returned unchanged, and wrongly typed
body shapes make the call raise instead of return. -/
theorem c8_return_value_characterized (k : Option String) (net : NetOutcome)
    (q sp : String) (r : PyVal) (h : call_gemini k net q sp = CallResult.ret r) :
    r = PyVal.str KEY_MISSING_MSG ∨
      (∃ desc, r = PyVal.str (ERR_CALLING_HEAD ++ desc)) ∨
      r = PyVal.str NO_VALID_TEXT_MSG ∨
      (∃ status body, net = NetOutcome.response status (Option.some body) ∧
        pathValue body = Option.some r) := by
  by_cases hk : keyTruthy k = true
  case neg =>
    rw [Bool.not_eq_true] at hk
    simp [call_gemini, hk] at h
    exact Or.inl h.symm
  case pos =>
    cases net with
    | requestException desc =>
      simp [call_gemini, hk] at h
      exact Or.inr (Or.inl ⟨desc, h.symm⟩)
    | response status body =>
      by_cases hst : 400 ≤ status ∧ status < 600
      · simp [call_gemini, hk, hst] at h
        exact Or.inr (Or.inl ⟨httpErrorDesc status, h.symm⟩)
      · cases body with
        | none =>
          simp [call_gemini, hk, hst] at h
          exact Or.inr (Or.inl ⟨JSON_DECODE_DESC, h.symm⟩)
        | some data =>
          simp [call_gemini, hk, hst] at h
          cases hext : extractText data with
          | error e => rw [hext] at h; simp at h
          | ok v =>
            rw [hext] at h
            simp at h
            obtain rfl := h
            rcases extractText_ok_cases data v (by rw [hext]) with h1 | h1
            · exact Or.inr (Or.inr (Or.inl h1))
            · exact Or.inr (Or.inr (Or.inr ⟨status, data, rfl, h1⟩))

/-- Witness for the amended C8: with the key unset the returned value is
the configuration sentence, landing in the first disjunct. -/
theorem c8_witness :
    PyVal.str KEY_MISSING_MSG = PyVal.str KEY_MISSING_MSG ∨
      (∃ desc, PyVal.str KEY_MISSING_MSG = PyVal.str (ERR_CALLING_HEAD ++ desc)) ∨
      PyVal.str KEY_MISSING_MSG = PyVal.str NO_VALID_TEXT_MSG ∨
      (∃ status body, NetOutcome.requestException "x"
          = NetOutcome.response status (Option.some body) ∧
        pathValue body = Option.some (PyVal.str KEY_MISSING_MSG)) :=
  c8_return_value_characterized Option.none (NetOutcome.requestException "x") "q" "s"
    (PyVal.str KEY_MISSING_MSG) rfl
